import Mathlib

/-!
Shallow embedding of the AI proofread plugin's orchestration core
(configuration loading, UI action construction, and the asynchronous
proofreading flow), together with theorems settling the specification's
claims against it.

File-system and network effects are abstracted as explicit inputs: a
file read becomes an `Option` of its parsed contents, a completed
remote call becomes an `Except` value, and UI side effects become an
explicit event trace.
-/

namespace AIProofread

/-- JSON values as produced by the json-glib parser.  Objects keep their
members in insertion order, matching json-glib's ordered member list. -/
inductive JVal where
  | null
  | bool (b : Bool)
  | num (n : Int)
  | str (s : String)
  | arr (elems : List JVal)
  | obj (members : List (String × JVal))

/-- `json_object_get_member`-style lookup: the first member with the given
name (json-glib objects have unique member names after parsing). -/
def lookupMember (members : List (String × JVal)) (key : String) : Option JVal :=
  (members.find? (fun m => m.1 == key)).map (fun m => m.2)

/-- `json_object_get_string_member`: the member's string payload, or NULL
(`none`) when the node is not an object, the member is missing, or the
member is not a string. -/
def getStringMember (v : JVal) (key : String) : Option String :=
  match v with
  | JVal.obj members =>
      match lookupMember members key with
      | some (JVal.str s) => some s
      | _ => none
  | _ => none

/-- `M_CONFIG_DEFAULT_MODEL` from m-config.h. -/
def M_CONFIG_DEFAULT_MODEL : String := "gpt-4o"

/-- Helper for `splitOnChar`: walk the character list, cutting at every
occurrence of the separator. -/
def splitOnCharAux (sep : Char) : List Char → List Char → List String
  | [], acc => [String.mk acc.reverse]
  | c :: rest, acc =>
      if c = sep then String.mk acc.reverse :: splitOnCharAux sep rest []
      else splitOnCharAux sep rest (c :: acc)

/-- `g_strsplit` with a single-character separator and no token limit, as
the source uses it for both " " and newline: consecutive separators
produce empty tokens, and leading/trailing separators produce leading/
trailing empty tokens. -/
def splitOnChar (sep : Char) (s : String) : List String :=
  splitOnCharAux sep s.data []

/-- `m_config_load_prompts` (src/src/m-config.c).  The input is the result
of parsing prompts.json: `none` for a missing/unreadable/malformed file,
`some root` for a successful parse.  A non-array root or a failed load
yields a fresh empty array; an array root is returned as-is. -/
def m_config_load_prompts (parsed : Option JVal) : List JVal :=
  match parsed with
  | some (JVal.arr elems) => elems
  | some _ => []
  | none => []

/-- `parse_authinfo_line` (src/src/m-config.c).  Splits the line on single
spaces (as `g_strsplit` does, keeping empty tokens) and accepts any line
with at least six tokens whose first five are the fixed pattern, returning
the sixth token. -/
def parse_authinfo_line (line : String) : Option String :=
  if line = "" then none
  else
    let tokens := splitOnChar ' ' line
    if 6 ≤ tokens.length ∧
        tokens.take 5 = ["machine", "api.openai.com", "login", "apikey", "password"]
    then tokens[5]?
    else none

/-- `m_config_load_api_key` (src/src/m-config.c).  The input is the result
of `g_file_get_contents` on ~/.authinfo (`none` = unreadable).  Lines are
scanned in order; the first line `parse_authinfo_line` accepts wins. -/
def m_config_load_api_key (fileContents : Option String) : Option String :=
  match fileContents with
  | none => none
  | some content => (splitOnChar '\n' content).findSome? parse_authinfo_line

/-- `m_config_load_model` (src/src/m-config.c).  The input is the parse of
config.json.  Returns the string member "model" when the root is an object
carrying one, and the default model constant otherwise. -/
def m_config_load_model (parsed : Option JVal) : String :=
  match parsed with
  | some (JVal.obj members) =>
      match lookupMember members "model" with
      | some (JVal.str s) => s
      | _ => M_CONFIG_DEFAULT_MODEL
  | _ => M_CONFIG_DEFAULT_MODEL

/-- The existing configuration object reused by `m_config_save_model`: the
parsed file's members when the root is an object, otherwise a fresh one. -/
def config_obj_of (existing : Option JVal) : List (String × JVal) :=
  match existing with
  | some (JVal.obj members) => members
  | _ => []

/-- `m_config_save_model` (src/src/m-config.c), as the transformation it
performs on the stored object: load the existing object (or start empty),
`json_object_remove_member` the "model" member, re-add "model" with the new
value (json-glib appends re-added members at the end of the ordered member
list), and write all members back in order. -/
def m_config_save_model (model : String) (existing : Option JVal) :
    List (String × JVal) :=
  (config_obj_of existing).filter (fun m => m.1 != "model")
    ++ [("model", JVal.str model)]

/-- The on-disk state produced by a successful `m_config_save_model`. -/
def savedConfigState (model : String) (existing : Option JVal) : Option JVal :=
  some (JVal.obj (m_config_save_model model existing))

/-- Rendering of a possibly-NULL string by `g_strdup_printf`'s `%s`
conversion: glibc prints a NULL argument as "(null)". -/
def printfStr (s : Option String) : String :=
  match s with
  | some v => v
  | none => "(null)"

/-- The initializer slots of an `EUIActionEntry` that the plugin fills:
name, icon name, label, accelerator, tooltip, and whether an activate
callback is installed (the remaining slots are always NULL). -/
structure EUIActionEntry where
  name : Option String
  icon : Option String
  label : Option String
  accel : Option String
  tooltip : Option String
  hasCallback : Bool
deriving Repr, DecidableEq

/-- `MUIActionContext` (src/src/m-ui-actions.h): prompts, credentials, the
current model and the available models, as copied by
`m_ui_action_context_new`. -/
structure MUIActionContext where
  prompts : List JVal
  api_key : Option String
  model : String
  models : List String

/-- `m_ui_action_context_new` (src/unnamed/part_002): copies its inputs,
substituting the default model constant for a NULL model. -/
def m_ui_action_context_new (prompts : List JVal) (api_key : Option String)
    (model : Option String) (models : List String) : MUIActionContext :=
  { prompts := prompts
    api_key := api_key
    model := match model with | some m => m | none => M_CONFIG_DEFAULT_MODEL
    models := models }

/-- `create_prompt_entry` (src/unnamed/part_002): action name
"ai-proofread-<name>", spellcheck icon, the prompt's name as label and its
text as tooltip, activating `action_proofread_cb`. -/
def create_prompt_entry (prompt : JVal) : EUIActionEntry :=
  { name := some ("ai-proofread-" ++ printfStr (getStringMember prompt "name"))
    icon := some "tools-check-spelling"
    label := getStringMember prompt "name"
    accel := none
    tooltip := getStringMember prompt "prompt"
    hasCallback := true }

/-- `create_menu_entry` (src/unnamed/part_002): the parent AI menu action,
with no callback. -/
def create_menu_entry : EUIActionEntry :=
  { name := some "ai-menu"
    icon := none
    label := some "AI"
    accel := none
    tooltip := some "AI tools"
    hasCallback := false }

/-- `create_dropdown_entry` (src/unnamed/part_002): the toolbar trigger
button that pops up the prompt menu. -/
def create_dropdown_entry : EUIActionEntry :=
  { name := some "ai-proofread-dropdown"
    icon := some "tools-check-spelling"
    label := some "AI _Proofread"
    accel := none
    tooltip := some "AI Proofread"
    hasCallback := true }

/-- `create_model_menu_entry` (src/unnamed/part_002): the Model submenu
action, labelled with the current model (or the default when NULL). -/
def create_model_menu_entry (current_model : Option String) : EUIActionEntry :=
  { name := some "ai-model-menu"
    icon := none
    label := some ("Model (" ++ printfStr (some (match current_model with
      | some m => m
      | none => M_CONFIG_DEFAULT_MODEL)) ++ ")")
    accel := none
    tooltip := some "Select AI model"
    hasCallback := false }

/-- `create_model_entry` (src/unnamed/part_002): one selectable action per
model id, with a check-mark label when it is the current model. -/
def create_model_entry (model_id : String) (is_current : Bool) : EUIActionEntry :=
  { name := some ("ai-model-" ++ model_id)
    icon := none
    label := some (if is_current then "✓ " ++ model_id else model_id)
    accel := none
    tooltip := some ("Use " ++ model_id ++ " model")
    hasCallback := true }

/-- One step of `validate_entries` (src/unnamed/part_002): backfill a NULL
name with "ai-proofread-missing-<i>", a NULL label with "(no label)" and a
NULL tooltip with the empty string. -/
def validate_entry (i : Nat) (e : EUIActionEntry) : EUIActionEntry :=
  { e with
    name := some (match e.name with
      | some n => n
      | none => "ai-proofread-missing-" ++ toString i)
    label := some (match e.label with
      | some l => l
      | none => "(no label)")
    tooltip := some (match e.tooltip with
      | some t => t
      | none => "") }

/-- `validate_entries` (src/unnamed/part_002), applied to every entry at
its index. -/
def validate_entries (entries : List EUIActionEntry) : List EUIActionEntry :=
  entries.mapIdx validate_entry

/-- `MUIActionEntries` (src/src/m-ui-actions.h): the built entry array
together with the recorded prompt count and total count.  The EUI XML
string is not modelled; no claim concerns it. -/
structure MUIActionEntries where
  entries : List EUIActionEntry
  count : Nat
  total_count : Nat

/-- `m_ui_build_action_entries` (src/unnamed/part_002): NULL for a NULL or
empty prompt array; otherwise the prompt entries, the AI menu, the
dropdown trigger, the Model submenu, and one entry per available model,
validated, with `total_count = n_prompts + 3 + n_models`. -/
def m_ui_build_action_entries (prompts : Option (List JVal))
    (action_context : MUIActionContext) : Option MUIActionEntries :=
  match prompts with
  | none => none
  | some ps =>
    if ps.length = 0 then none
    else
      some { entries := validate_entries
               (ps.map create_prompt_entry
                 ++ [create_menu_entry, create_dropdown_entry,
                     create_model_menu_entry (some action_context.model)]
                 ++ action_context.models.map
                     (fun mid => create_model_entry mid (mid == action_context.model)))
             count := ps.length
             total_count := ps.length + 3 + action_context.models.length }

/-- `validate_configuration` (src/unnamed/part_005): requires a non-NULL,
non-empty prompt array and a non-NULL API key. -/
def validate_configuration (prompts : Option (List JVal))
    (api_key : Option String) : Bool :=
  match prompts with
  | none => false
  | some ps => if ps.length = 0 then false else api_key.isSome

/-- `m_msg_composer_extension_add_ui` (src/unnamed/part_005), as the
action set it registers: nothing when configuration validation fails or no
entries were built, otherwise the built entry set. -/
def m_msg_composer_extension_add_ui (prompts : Option (List JVal))
    (api_key : Option String) (model : Option String)
    (models : List String) : Option MUIActionEntries :=
  if validate_configuration prompts api_key then
    let ui_context := m_ui_action_context_new
      (match prompts with | some ps => ps | none => []) api_key model models
    m_ui_build_action_entries prompts ui_context
  else
    none

/-- `PROOFREAD_WAIT_DELAY_MS` (src/unnamed/part_003). -/
def PROOFREAD_WAIT_DELAY_MS : Nat := 800

/-- Observable side effects of the proofreading flow: timer management,
wait-dialog lifecycle, alert-surface submissions, the no-response dialog,
content-sink insertions, the remote API dispatch, the editor content
request, and release of the per-invocation context. -/
inductive PEvent where
  | timerArm (delayMs : Nat)
  | timerCancel
  | waitDialogShow
  | waitDialogDestroy
  | alertSubmit (tag : String) (msg : String)
  | noResponseDialog
  | insertContent (text : String)
  | apiDispatch (content : String)
  | contentRequest
  | contextFree
deriving Repr, DecidableEq

/-- `MProofreadContext` (src/unnamed/part_003): the per-invocation request
value plus the wait-indicator handles.  `composerAlive` stands for the
`GTK_IS_WINDOW (context->composer)` liveness check; `wait_timeout_armed`
for a non-zero `wait_timeout_id`; `wait_dialog` for a non-NULL dialog. -/
structure MProofreadContext where
  prompt_id : String
  prompts : List JVal
  api_key : String
  model : Option String
  composerAlive : Bool
  wait_dialog : Bool
  wait_timeout_armed : Bool

/-- `proofreader_wait_indicator_clear` (src/unnamed/part_003): remove the
pending timeout when one is armed, destroy the wait dialog when one is
shown, and zero both handles. -/
def proofreader_wait_indicator_clear (ctx : MProofreadContext) :
    MProofreadContext × List PEvent :=
  ({ ctx with wait_timeout_armed := false, wait_dialog := false },
   (if ctx.wait_timeout_armed then [PEvent.timerCancel] else [])
     ++ (if ctx.wait_dialog then [PEvent.waitDialogDestroy] else []))

/-- `proofreader_wait_indicator_show` (src/unnamed/part_003), the timeout
callback: bail out when the composer window is gone (leaving the handles
untouched), otherwise show the modal wait dialog and zero the timeout
id. -/
def proofreader_wait_indicator_show (ctx : MProofreadContext) :
    MProofreadContext × List PEvent :=
  if ctx.composerAlive then
    ({ ctx with wait_dialog := true, wait_timeout_armed := false },
     [PEvent.waitDialogShow])
  else
    (ctx, [])

/-- `proofreader_wait_indicator_schedule` (src/unnamed/part_003): arm the
one-shot deferred timeout unless one is already armed or the dialog is
already up. -/
def proofreader_wait_indicator_schedule (ctx : MProofreadContext) :
    MProofreadContext × List PEvent :=
  if ctx.wait_timeout_armed || ctx.wait_dialog then (ctx, [])
  else
    ({ ctx with wait_timeout_armed := true },
     [PEvent.timerArm PROOFREAD_WAIT_DELAY_MS])

/-- `m_proofreader_context_free` (src/unnamed/part_003): clear the wait
indicator, then release the context's strings, prompt array reference and
the context itself. -/
def m_proofreader_context_free (ctx : MProofreadContext) : List PEvent :=
  (proofreader_wait_indicator_clear ctx).2 ++ [PEvent.contextFree]

/-- The value a completed proofread `GTask` propagates: an error, or the
(nullable) proofread text returned by `m_chatgpt_proofread`. -/
def ProofreadResult : Type := Except String (Option String)

/-- `proofread_task_completed` (src/unnamed/part_003): dismiss the wait
indicator first, unconditionally; then branch on the propagated result
(error alert, no-response dialog, or content insertion); finally free the
context. -/
def proofread_task_completed (ctx : MProofreadContext)
    (result : Except String (Option String)) : List PEvent :=
  let cleared := proofreader_wait_indicator_clear ctx
  cleared.2
    ++ (match result with
        | Except.error msg => [PEvent.alertSubmit "ai:error-proofreading" msg]
        | Except.ok none => [PEvent.noResponseDialog]
        | Except.ok (some text) => [PEvent.insertContent text])
    ++ m_proofreader_context_free cleared.1

/-- `start_proofread_task` (src/unnamed/part_003): schedule the wait
indicator, then run the remote call on the worker thread (the dispatch of
`m_chatgpt_proofread` with the retrieved content). -/
def start_proofread_task (ctx : MProofreadContext) (original_content : String) :
    MProofreadContext × List PEvent :=
  let scheduled := proofreader_wait_indicator_schedule ctx
  (scheduled.1, scheduled.2 ++ [PEvent.apiDispatch original_content])

/-- What `e_content_editor_get_content_finish` plus
`e_content_editor_util_steal_content_data` delivered to
`m_proofreader_content_ready_cb`: a retrieval error, a NULL content hash,
or the (nullable) stolen content string. -/
inductive ContentOutcome where
  | getError (msg : String)
  | noContentHash
  | contentData (content : Option String)

/-- `m_proofreader_content_ready_cb` (src/unnamed/part_003): free the
context on a retrieval error, a missing content hash, or NULL content;
hand the context off to `start_proofread_task` when content (even the
empty string) was returned.  The first component is the surviving context
(none when it was freed). -/
def m_proofreader_content_ready_cb (ctx : MProofreadContext)
    (outcome : ContentOutcome) : Option MProofreadContext × List PEvent :=
  match outcome with
  | ContentOutcome.getError _ => (none, m_proofreader_context_free ctx)
  | ContentOutcome.noContentHash => (none, m_proofreader_context_free ctx)
  | ContentOutcome.contentData none => (none, m_proofreader_context_free ctx)
  | ContentOutcome.contentData (some c) =>
      let started := start_proofread_task ctx c
      (some started.1, started.2)

/-- `m_proofreader_context_new` (src/unnamed/part_003): a fresh context
with both wait-indicator handles zeroed. -/
def m_proofreader_context_new (prompt_id : String) (prompts : List JVal)
    (api_key : String) (model : Option String) (composerAlive : Bool) :
    MProofreadContext :=
  { prompt_id := prompt_id
    prompts := prompts
    api_key := api_key
    model := model
    composerAlive := composerAlive
    wait_dialog := false
    wait_timeout_armed := false }

/-- `m_proofreader_start` (src/unnamed/part_003): the `g_return_if_fail`
guards abort the invocation when the editor, prompt id, prompt array or
API key is NULL, creating nothing and requesting nothing; otherwise a
context is created and the editor content requested asynchronously. -/
def m_proofreader_start (cnt_editor : Bool) (prompt_id : Option String)
    (prompts : Option (List JVal)) (api_key : Option String)
    (model : Option String) (composerAlive : Bool) :
    Option MProofreadContext × List PEvent :=
  match cnt_editor, prompt_id, prompts, api_key with
  | true, some pid, some ps, some key =>
      (some (m_proofreader_context_new pid ps key model composerAlive),
       [PEvent.contentRequest])
  | _, _, _, _ => (none, [])

/-- The events of one dispatched request, in the order the single-threaded
UI main loop delivers them: the dispatch-time events, then the events of
the 800 ms timeout callback if it fires, then the completion handler's
events. -/
structure DispatchSimulation where
  dispatchPhase : List PEvent
  timerPhase : List PEvent
  completionPhase : List PEvent

/-- All events of the simulated request, in delivery order. -/
def DispatchSimulation.trace (s : DispatchSimulation) : List PEvent :=
  s.dispatchPhase ++ s.timerPhase ++ s.completionPhase

/-- One dispatched request on the GLib main loop, driven by the worker's
completion time: `start_proofread_task` runs at time 0; the one-shot
timeout armed there fires iff the main loop reaches the 800 ms deadline
before the worker's completion is delivered ( `PROOFREAD_WAIT_DELAY_MS <
completionMs` ); the completion handler runs last. -/
def simulate_request (ctx : MProofreadContext) (content : String)
    (completionMs : Nat) (result : Except String (Option String)) :
    DispatchSimulation :=
  let started := start_proofread_task ctx content
  if PROOFREAD_WAIT_DELAY_MS < completionMs then
    let fired := proofreader_wait_indicator_show started.1
    { dispatchPhase := started.2
      timerPhase := fired.2
      completionPhase := proofread_task_completed fired.1 result }
  else
    { dispatchPhase := started.2
      timerPhase := []
      completionPhase := proofread_task_completed started.1 result }

/-- Number of alert-surface submissions in a trace. -/
def countAlerts (evs : List PEvent) : Nat :=
  evs.countP (fun e => match e with
    | PEvent.alertSubmit _ _ => true
    | _ => false)

/-- Number of content-sink insertions in a trace. -/
def countInsertions (evs : List PEvent) : Nat :=
  evs.countP (fun e => match e with
    | PEvent.insertContent _ => true
    | _ => false)

/-- Number of wait-dialog destructions in a trace. -/
def countDialogDestroys (evs : List PEvent) : Nat :=
  evs.countP (fun e => e == PEvent.waitDialogDestroy)

/-- Number of timeout cancellations in a trace. -/
def countTimerCancels (evs : List PEvent) : Nat :=
  evs.countP (fun e => e == PEvent.timerCancel)

/-- Number of wait-dialog presentations in a trace. -/
def countDialogShows (evs : List PEvent) : Nat :=
  evs.countP (fun e => e == PEvent.waitDialogShow)

/-- Number of remote-call dispatches in a trace. -/
def countDispatches (evs : List PEvent) : Nat :=
  evs.countP (fun e => match e with
    | PEvent.apiDispatch _ => true
    | _ => false)

/-- A prompt entry the rest of the plugin can use without backfilling: an
object carrying string members "name" and "prompt". -/
def isWellFormedPrompt (v : JVal) : Bool :=
  (getStringMember v "name").isSome && (getStringMember v "prompt").isSome

/-- Concrete well-formed prompt object used as a fixture. -/
def promptFix : JVal :=
  JVal.obj [("name", JVal.str "Fix"), ("prompt", JVal.str "Fix grammar.")]

/-- Concrete UI action context: one prompt, an API key, the default model,
no fetched models. -/
def ctxNoModels : MUIActionContext :=
  m_ui_action_context_new [promptFix] (some "sk-test") (some "gpt-4o") []

/-- Concrete proofreading context with a live composer. -/
def pctxFix : MProofreadContext :=
  m_proofreader_context_new "ai-proofread-Fix" [promptFix] "sk-test"
    (some "gpt-4o") true

/-- Concrete pre-existing configuration object with one unrelated key and
an old model value. -/
def existingConfig : Option JVal :=
  some (JVal.obj [("theme", JVal.str "dark"), ("model", JVal.str "old-model")])

/- ### Helper lemmas -/

/-- `find?` by a key finds nothing in a list whose entries with that key
were all filtered out. -/
theorem find?_key_filter_ne {α : Type} (key : String) (l : List (String × α)) :
    (l.filter (fun m => m.1 != key)).find? (fun m => m.1 == key) = none := by
  rw [List.find?_eq_none]
  intro x hx
  have hq := List.of_mem_filter hx
  simp only [bne_iff_ne, ne_eq] at hq
  simp [hq]

/-- Dropping all entries with a different key does not change a `find?` by
this key. -/
theorem find?_key_filter_other {α : Type} (k key : String) (hk : k ≠ key)
    (l : List (String × α)) :
    (l.filter (fun m => m.1 != key)).find? (fun m => m.1 == k) =
      l.find? (fun m => m.1 == k) := by
  induction l with
  | nil => rfl
  | cons x xs ih =>
      rw [List.filter_cons]
      by_cases hx : x.1 = key
      · have hkeep : (x.1 != key) = false := by simp [hx]
        have hpx : ¬ ((x.1 == k) = true) := by
          simp only [beq_iff_eq, hx]
          exact fun h => hk h.symm
        rw [hkeep, if_neg Bool.false_ne_true, ih,
          List.find?_cons_of_neg (p := fun m => m.1 == k) xs hpx]
      · have hkeep : (x.1 != key) = true := by simp [hx]
        rw [hkeep, if_pos rfl]
        by_cases hpk : (x.1 == k) = true
        · rw [List.find?_cons_of_pos (p := fun m => m.1 == k)
              (xs.filter (fun m => m.1 != key)) hpk,
            List.find?_cons_of_pos (p := fun m => m.1 == k) xs hpk]
        · rw [List.find?_cons_of_neg (p := fun m => m.1 == k)
              (xs.filter (fun m => m.1 != key)) hpk,
            List.find?_cons_of_neg (p := fun m => m.1 == k) xs hpk, ih]

/-- Validation backfills in place: it never changes the number of entries. -/
theorem validate_entries_length (l : List EUIActionEntry) :
    (validate_entries l).length = l.length := by
  simp [validate_entries, List.length_mapIdx]

/- ### Claim theorems -/

/-- Claim C8 (amended claim): `m_config_load_prompts` never fails its
caller — a missing or unreadable file or malformed JSON (`none`) yields
the empty sequence, a root that is not an array yields the empty sequence,
and an array root is returned whole; malformed entries inside the array
are retained, not skipped. -/
theorem load_prompts_never_fails :
    m_config_load_prompts none = [] ∧
    (∀ v : JVal, (∀ elems, v ≠ JVal.arr elems) → m_config_load_prompts (some v) = []) ∧
    (∀ elems : List JVal, m_config_load_prompts (some (JVal.arr elems)) = elems) := by
  refine ⟨rfl, ?_, fun elems => rfl⟩
  intro v h
  cases v with
  | arr elems => exact absurd rfl (h elems)
  | null => rfl
  | bool b => rfl
  | num n => rfl
  | str s => rfl
  | obj members => rfl

/-- Witness for `load_prompts_never_fails` at the non-array root
`JVal.null`. -/
theorem load_prompts_never_fails_witness :
    m_config_load_prompts (some JVal.null) = [] :=
  load_prompts_never_fails.2.1 JVal.null (fun _ h => JVal.noConfusion h)

/-- Claim C8 counterexample: an array root containing the malformed entry
`42` is returned with that entry retained — `m_config_load_prompts` does
not skip malformed entries individually. -/
theorem load_prompts_retains_malformed_entry :
    m_config_load_prompts (some (JVal.arr [JVal.num 42])) = [JVal.num 42] ∧
    isWellFormedPrompt (JVal.num 42) = false :=
  ⟨rfl, rfl⟩

/-- Claim C3 (amended claim): credential loading returns the sixth token
of the first line whose tokens begin with the fixed five-token pattern
`machine api.openai.com login apikey password` and number at least six
(trailing tokens are ignored, so recognition is not limited to exactly six
tokens); it returns nothing when no line matches or the file is
unreadable, and a line with fewer than six tokens is skipped without
error. -/
theorem authinfo_credential_loading :
    m_config_load_api_key
        (some "machine api.openai.com login apikey password XYZ123") = some "XYZ123" ∧
    m_config_load_api_key none = none ∧
    (∀ content : String,
        (∀ line ∈ splitOnChar '\n' content, parse_authinfo_line line = none) →
        m_config_load_api_key (some content) = none) ∧
    (∀ line : String, (splitOnChar ' ' line).length < 6 →
        parse_authinfo_line line = none) ∧
    (∀ line key, parse_authinfo_line line = some key →
        6 ≤ (splitOnChar ' ' line).length ∧
        (splitOnChar ' ' line).take 5 =
          ["machine", "api.openai.com", "login", "apikey", "password"] ∧
        (splitOnChar ' ' line)[5]? = some key) ∧
    m_config_load_api_key
        (some ("machine api.openai.com login apikey password K1\n" ++
          "machine api.openai.com login apikey password K2")) = some "K1" := by
  refine ⟨by decide, rfl, ?_, ?_, ?_, by decide⟩
  · intro content h
    exact List.findSome?_eq_none_iff.mpr h
  · intro line hlen
    unfold parse_authinfo_line
    by_cases hline : line = ""
    · simp [hline]
    · rw [if_neg hline, if_neg]
      intro hc
      omega
  · intro line key h
    unfold parse_authinfo_line at h
    by_cases hline : line = ""
    · rw [if_pos hline] at h
      exact Option.noConfusion h
    · rw [if_neg hline] at h
      by_cases hc : 6 ≤ (splitOnChar ' ' line).length ∧
          (splitOnChar ' ' line).take 5 =
            ["machine", "api.openai.com", "login", "apikey", "password"]
      · rw [if_pos hc] at h
        exact ⟨hc.1, hc.2, h⟩
      · rw [if_neg hc] at h
        exact Option.noConfusion h

/-- Witness for `authinfo_credential_loading`: the skip clause at a
two-token line. -/
theorem authinfo_credential_loading_witness :
    parse_authinfo_line "too short" = none :=
  authinfo_credential_loading.2.2.2.1 "too short" (by decide)

/-- Claim C3 counterexample: a seven-token line with trailing garbage is
still recognized and yields its sixth token, so recognition is not limited
to the exact six-token pattern. -/
theorem authinfo_extra_token_line_recognized :
    m_config_load_api_key
        (some "machine api.openai.com login apikey password KEY extra") = some "KEY" ∧
    (splitOnChar ' '
        "machine api.openai.com login apikey password KEY extra").length = 7 :=
  ⟨by decide, by decide⟩

/-- Claim C4: saving a model then loading it returns the saved model, and
saving preserves every member other than "model" — both its looked-up
value and the verbatim sub-list of non-"model" members (read-merge-write,
not overwrite). -/
theorem save_model_roundtrip_and_preserves (model : String) (existing : Option JVal) :
    m_config_load_model (savedConfigState model existing) = model ∧
    (∀ key, key ≠ "model" →
        lookupMember (m_config_save_model model existing) key =
          lookupMember (config_obj_of existing) key) ∧
    (m_config_save_model model existing).filter (fun m => m.1 != "model") =
      (config_obj_of existing).filter (fun m => m.1 != "model") := by
  have hmodel : lookupMember (m_config_save_model model existing) "model" =
      some (JVal.str model) := by
    unfold m_config_save_model lookupMember
    rw [List.find?_append, find?_key_filter_ne,
      List.find?_cons_of_pos (p := fun (m : String × JVal) => m.1 == "model") [] (by simp)]
    rfl
  refine ⟨?_, ?_, ?_⟩
  · show m_config_load_model
        (some (JVal.obj (m_config_save_model model existing))) = model
    simp only [m_config_load_model]
    rw [hmodel]
  · intro key hkey
    unfold m_config_save_model lookupMember
    have hne : ¬ ((("model" : String) == key) = true) := by
      simp only [beq_iff_eq]
      exact fun h => hkey h.symm
    rw [List.find?_append, find?_key_filter_other key "model" hkey,
      List.find?_cons_of_neg (p := fun (m : String × JVal) => m.1 == key) [] hne]
    cases (config_obj_of existing).find? (fun m => m.1 == key) <;> rfl
  · unfold m_config_save_model
    rw [List.filter_append, List.filter_filter]
    simp

/-- Witness for `save_model_roundtrip_and_preserves` at a pre-existing
object with an unrelated "theme" key. -/
theorem save_model_roundtrip_witness :
    m_config_load_model (savedConfigState "gpt-4o-mini" existingConfig) = "gpt-4o-mini" ∧
    lookupMember (m_config_save_model "gpt-4o-mini" existingConfig) "theme" =
      lookupMember (config_obj_of existingConfig) "theme" :=
  ⟨(save_model_roundtrip_and_preserves "gpt-4o-mini" existingConfig).1,
   (save_model_roundtrip_and_preserves "gpt-4o-mini" existingConfig).2.1
     "theme" (by decide)⟩

/-- Claim C1 (amended claim): for a non-empty prompt array of length N and
M available models, `m_ui_build_action_entries` builds exactly N+M+3
action entries — one per prompt, one per model, the container menu, the
trigger action, and the model submenu — and records that total; for an
empty or NULL prompt array it builds nothing. -/
theorem build_action_entries_count (ps : List JVal) (ctx : MUIActionContext)
    (h : ps ≠ []) :
    ∃ ae, m_ui_build_action_entries (some ps) ctx = some ae ∧
      ae.entries.length = ps.length + ctx.models.length + 3 ∧
      ae.total_count = ps.length + ctx.models.length + 3 ∧
      ae.count = ps.length := by
  have hlen : ¬ ps.length = 0 := fun hl => h (List.length_eq_zero.mp hl)
  simp only [m_ui_build_action_entries]
  rw [if_neg hlen]
  refine ⟨_, rfl, ?_,
    by show ps.length + 3 + ctx.models.length = ps.length + ctx.models.length + 3
       omega,
    rfl⟩
  rw [validate_entries_length]
  simp [List.length_append, List.length_map]
  omega

/-- Witness for `build_action_entries_count` at one prompt and no
models. -/
theorem build_action_entries_count_witness :
    ∃ ae, m_ui_build_action_entries (some [promptFix]) ctxNoModels = some ae ∧
      ae.entries.length = [promptFix].length + ctxNoModels.models.length + 3 ∧
      ae.total_count = [promptFix].length + ctxNoModels.models.length + 3 ∧
      ae.count = [promptFix].length :=
  build_action_entries_count [promptFix] ctxNoModels (List.cons_ne_nil promptFix [])

/-- Claim C1 counterexample: with one well-formed prompt and zero models
the built set has 4 entries, not N+M+2 = 3 — the model submenu entry makes
the structural count three, not two. -/
theorem build_action_entries_count_counterexample :
    (m_ui_build_action_entries (some [promptFix]) ctxNoModels).map
        (fun ae => ae.entries.length) = some 4 ∧
    (4 : Nat) ≠ 1 + 0 + 2 := by
  constructor
  · rfl
  · decide

/-- Claim C10: for a NULL or empty prompt array,
`m_ui_build_action_entries` returns NULL, and the extension registers no
actions at all — regardless of the API key, the selected model, or how
many models are available. -/
theorem no_prompts_no_actions (ctx : MUIActionContext)
    (api_key model : Option String) (models : List String) :
    m_ui_build_action_entries none ctx = none ∧
    m_ui_build_action_entries (some []) ctx = none ∧
    m_msg_composer_extension_add_ui none api_key model models = none ∧
    m_msg_composer_extension_add_ui (some []) api_key model models = none := by
  refine ⟨rfl, rfl, rfl, ?_⟩
  simp [m_msg_composer_extension_add_ui, validate_configuration]

/-- Claim C7: when the prompt id, the prompts registry or the API key is
NULL, `m_proofreader_start` aborts synchronously — no context is created,
no content retrieval is requested, and no event of any kind (remote call,
dialog, alert, insertion) is produced. -/
theorem start_missing_precondition_aborts (cnt_editor : Bool)
    (prompt_id : Option String) (prompts : Option (List JVal))
    (api_key : Option String) (model : Option String) (composerAlive : Bool)
    (h : prompt_id = none ∨ prompts = none ∨ api_key = none) :
    m_proofreader_start cnt_editor prompt_id prompts api_key model
      composerAlive = (none, []) := by
  rcases h with h | h | h
  · subst h; cases cnt_editor <;> cases prompts <;> cases api_key <;> rfl
  · subst h; cases cnt_editor <;> cases prompt_id <;> cases api_key <;> rfl
  · subst h; cases cnt_editor <;> cases prompt_id <;> cases prompts <;> rfl

/-- Witness for `start_missing_precondition_aborts` at a NULL prompt
id. -/
theorem start_missing_precondition_aborts_witness :
    m_proofreader_start true none (some [promptFix]) (some "sk-test")
      (some "gpt-4o") true = (none, []) :=
  start_missing_precondition_aborts true none (some [promptFix])
    (some "sk-test") (some "gpt-4o") true (Or.inl rfl)

/-- Claim C2 (amended claim): when the retrieved source text is absent
(`steal_content_data` returned NULL), the content-ready callback makes no
remote-call dispatch and terminates the invocation directly, releasing its
context; when the retrieved text is the empty string (non-NULL), the
remote call is still dispatched. -/
theorem content_ready_null_text_no_dispatch (ctx : MProofreadContext) :
    (m_proofreader_content_ready_cb ctx (ContentOutcome.contentData none)).1 = none ∧
    countDispatches
      (m_proofreader_content_ready_cb ctx (ContentOutcome.contentData none)).2 = 0 ∧
    PEvent.contextFree ∈
      (m_proofreader_content_ready_cb ctx (ContentOutcome.contentData none)).2 := by
  obtain ⟨pid, ps, key, model, alive, dlg, armed⟩ := ctx
  cases dlg <;> cases armed <;>
    simp [m_proofreader_content_ready_cb, m_proofreader_context_free,
      proofreader_wait_indicator_clear, countDispatches]

/-- Claim C2 counterexample: a retrieved source text equal to the empty
string (empty text, but a non-NULL pointer) still produces a remote-call
dispatch with that empty content — the fast no-op path is taken only for
NULL content. -/
theorem content_ready_empty_string_dispatches :
    (m_proofreader_content_ready_cb pctxFix
        (ContentOutcome.contentData (some ""))).2 =
      [PEvent.timerArm 800, PEvent.apiDispatch ""] ∧
    countDispatches
      (m_proofreader_content_ready_cb pctxFix
        (ContentOutcome.contentData (some ""))).2 = 1 := by
  constructor
  · rfl
  · rfl

/-- Claim C5: a completed request that propagated an error yields exactly
one alert-surface submission and zero content-sink insertions; one that
propagated non-empty text yields exactly one insertion and zero alert
submissions. -/
theorem completed_alerts_and_insertions (ctx : MProofreadContext)
    (msg text : String) (hne : text ≠ "") :
    countAlerts (proofread_task_completed ctx (Except.error msg)) = 1 ∧
    countInsertions (proofread_task_completed ctx (Except.error msg)) = 0 ∧
    countInsertions (proofread_task_completed ctx (Except.ok (some text))) = 1 ∧
    countAlerts (proofread_task_completed ctx (Except.ok (some text))) = 0 := by
  obtain ⟨pid, ps, key, model, alive, dlg, armed⟩ := ctx
  cases dlg <;> cases armed <;>
    simp [proofread_task_completed, proofreader_wait_indicator_clear,
      m_proofreader_context_free, countAlerts, countInsertions,
      List.countP_cons, List.countP_nil]

/-- Witness for `completed_alerts_and_insertions` at concrete error and
success completions. -/
theorem completed_alerts_and_insertions_witness :
    countAlerts (proofread_task_completed pctxFix (Except.error "boom")) = 1 ∧
    countInsertions (proofread_task_completed pctxFix (Except.error "boom")) = 0 ∧
    countInsertions
      (proofread_task_completed pctxFix (Except.ok (some "Fixed."))) = 1 ∧
    countAlerts
      (proofread_task_completed pctxFix (Except.ok (some "Fixed."))) = 0 :=
  completed_alerts_and_insertions pctxFix "boom" "Fixed." (by decide)

/-- Claim C6: on every completion the wait-indicator teardown runs first
and unconditionally — the completion trace is the teardown events of
`proofreader_wait_indicator_clear`, then exactly one outcome event (which
is neither a teardown event nor a wait-dialog presentation), then the
context release; the pending timer is cancelled exactly once when armed,
the wait dialog destroyed exactly once when shown (the second clear inside
the context release finds both handles already zeroed), no wait dialog is
ever shown after completion, and nothing is left dangling. -/
theorem completed_teardown_first_exactly_once (ctx : MProofreadContext)
    (result : Except String (Option String)) :
    ∃ outcome : PEvent,
      proofread_task_completed ctx result =
        (proofreader_wait_indicator_clear ctx).2
          ++ [outcome, PEvent.contextFree] ∧
      outcome ≠ PEvent.timerCancel ∧
      outcome ≠ PEvent.waitDialogDestroy ∧
      outcome ≠ PEvent.waitDialogShow ∧
      countDialogDestroys (proofread_task_completed ctx result) =
        (if ctx.wait_dialog then 1 else 0) ∧
      countTimerCancels (proofread_task_completed ctx result) =
        (if ctx.wait_timeout_armed then 1 else 0) ∧
      countDialogShows (proofread_task_completed ctx result) = 0 := by
  obtain ⟨pid, ps, key, model, alive, dlg, armed⟩ := ctx
  rcases result with msg | opt
  · refine ⟨PEvent.alertSubmit "ai:error-proofreading" msg, ?_⟩
    cases dlg <;> cases armed <;>
      simp [proofread_task_completed, proofreader_wait_indicator_clear,
        m_proofreader_context_free, countDialogDestroys, countTimerCancels,
        countDialogShows, List.countP_cons, List.countP_nil]
  · rcases opt with _ | text
    · refine ⟨PEvent.noResponseDialog, ?_⟩
      cases dlg <;> cases armed <;>
        simp [proofread_task_completed, proofreader_wait_indicator_clear,
          m_proofreader_context_free, countDialogDestroys, countTimerCancels,
          countDialogShows, List.countP_cons, List.countP_nil]
    · refine ⟨PEvent.insertContent text, ?_⟩
      cases dlg <;> cases armed <;>
        simp [proofread_task_completed, proofreader_wait_indicator_clear,
          m_proofreader_context_free, countDialogDestroys, countTimerCancels,
          countDialogShows, List.countP_cons, List.countP_nil]

/-- Claim C9: for a freshly created context with a live composer, the
one-shot 800 ms timer is armed in the dispatch phase of every request; a
request completing in under 800 ms never shows the wait indicator — its
timer is cancelled by the completion handler before it could fire — and a
request exceeding 800 ms shows the wait indicator exactly once in the
timer phase, strictly before the completion phase, which shows none. -/
theorem wait_indicator_timing (pid : String) (ps : List JVal) (key : String)
    (model : Option String) (content : String)
    (result : Except String (Option String)) (tFast tSlow : Nat)
    (hFast : tFast < PROOFREAD_WAIT_DELAY_MS)
    (hSlow : PROOFREAD_WAIT_DELAY_MS < tSlow) :
    PEvent.timerArm PROOFREAD_WAIT_DELAY_MS ∈
      (simulate_request (m_proofreader_context_new pid ps key model true)
        content tFast result).dispatchPhase ∧
    PEvent.timerArm PROOFREAD_WAIT_DELAY_MS ∈
      (simulate_request (m_proofreader_context_new pid ps key model true)
        content tSlow result).dispatchPhase ∧
    countDialogShows
      (simulate_request (m_proofreader_context_new pid ps key model true)
        content tFast result).trace = 0 ∧
    (simulate_request (m_proofreader_context_new pid ps key model true)
        content tFast result).timerPhase = [] ∧
    PEvent.timerCancel ∈
      (simulate_request (m_proofreader_context_new pid ps key model true)
        content tFast result).completionPhase ∧
    countDialogShows
      (simulate_request (m_proofreader_context_new pid ps key model true)
        content tSlow result).timerPhase = 1 ∧
    countDialogShows
      (simulate_request (m_proofreader_context_new pid ps key model true)
        content tSlow result).completionPhase = 0 := by
  have hnotFast : ¬ (PROOFREAD_WAIT_DELAY_MS < tFast) := by omega
  refine ⟨?_, ?_, ?_, ?_, ?_, ?_, ?_⟩ <;>
    rcases result with msg | (_ | text) <;>
      simp [simulate_request, hnotFast, hSlow, DispatchSimulation.trace,
        start_proofread_task, proofreader_wait_indicator_schedule,
        proofreader_wait_indicator_show, proofread_task_completed,
        proofreader_wait_indicator_clear, m_proofreader_context_free,
        m_proofreader_context_new, countDialogShows,
        List.countP_cons, List.countP_nil]

/-- Witness for `wait_indicator_timing` at completion times 100 ms and
900 ms. -/
theorem wait_indicator_timing_witness :
    PEvent.timerArm PROOFREAD_WAIT_DELAY_MS ∈
      (simulate_request
        (m_proofreader_context_new "ai-proofread-Fix" [promptFix] "sk-test"
          (some "gpt-4o") true) "Hello" 100
        (Except.ok (some "Hi"))).dispatchPhase ∧
    PEvent.timerArm PROOFREAD_WAIT_DELAY_MS ∈
      (simulate_request
        (m_proofreader_context_new "ai-proofread-Fix" [promptFix] "sk-test"
          (some "gpt-4o") true) "Hello" 900
        (Except.ok (some "Hi"))).dispatchPhase ∧
    countDialogShows
      (simulate_request
        (m_proofreader_context_new "ai-proofread-Fix" [promptFix] "sk-test"
          (some "gpt-4o") true) "Hello" 100
        (Except.ok (some "Hi"))).trace = 0 ∧
    (simulate_request
        (m_proofreader_context_new "ai-proofread-Fix" [promptFix] "sk-test"
          (some "gpt-4o") true) "Hello" 100
        (Except.ok (some "Hi"))).timerPhase = [] ∧
    PEvent.timerCancel ∈
      (simulate_request
        (m_proofreader_context_new "ai-proofread-Fix" [promptFix] "sk-test"
          (some "gpt-4o") true) "Hello" 100
        (Except.ok (some "Hi"))).completionPhase ∧
    countDialogShows
      (simulate_request
        (m_proofreader_context_new "ai-proofread-Fix" [promptFix] "sk-test"
          (some "gpt-4o") true) "Hello" 900
        (Except.ok (some "Hi"))).timerPhase = 1 ∧
    countDialogShows
      (simulate_request
        (m_proofreader_context_new "ai-proofread-Fix" [promptFix] "sk-test"
          (some "gpt-4o") true) "Hello" 900
        (Except.ok (some "Hi"))).completionPhase = 0 :=
  wait_indicator_timing "ai-proofread-Fix" [promptFix] "sk-test"
    (some "gpt-4o") "Hello" (Except.ok (some "Hi")) 100 900
    (by decide) (by decide)

end AIProofread
